import Mathlib

/-!
Shallow embedding of the Habit & To-Do Tracker backend
(src/backend_api/src/api/main.py) and verification of its specification.

Modelling conventions:
- Python dicts `TASKS` / `HABITS` (insertion-ordered, keyed by `id`) are
  modelled as lists of records; `storeGet`, `storeSet`, `storeDel` mirror
  `d.get(k)`, `d[k] = v` (replace in place if the key is present, else
  append) and `del d[k]`.
- `datetime.utcnow()` values and `date` values are opaque Nat timestamps.
- A JSON field of a request body is `FieldInput`: omitted, null, or a value;
  pydantic parsing (defaults, required fields, rejection of null for
  non-Optional fields) is `parseTaskCreate` / `parseHabitCreate`.
- A PATCH payload parsed with `model_dump(exclude_unset=True)` is a structure
  whose fields are `Option`-wrapped: `none` means the field was absent from
  the payload; for fields that are nullable in storage the payload value is
  itself an `Option` (so `some none` means explicitly null).
- `HTTPException` is the `ApiError` error of an `Except`.
-/

set_option autoImplicit false

namespace TrackerApi

/-- Error raised by a handler: HTTP 404 with a resource-specific detail. -/
inductive ApiError where
  | notFound (detail : String)
deriving DecidableEq, Repr

/-- One field of a JSON request body: absent, JSON null, or a value. -/
inductive FieldInput (α : Type) where
  | omitted
  | null
  | value (a : α)
deriving DecidableEq, Repr

/-- Pydantic `f : T = Field(...)`: required, non-nullable. -/
def parseRequired {α : Type} : FieldInput α → Option α
  | .value a => some a
  | _ => none

/-- Pydantic `f : Optional[T] = None`: omitted and null both parse to `none`. -/
def parseNullable {α : Type} : FieldInput α → Option (Option α)
  | .omitted => some none
  | .null => some none
  | .value a => some (some a)

/-- Pydantic `f : Optional[T] = d`: omitted parses to the default `some d`,
null parses to `none`, a value parses to itself. -/
def parseNullableDefault {α : Type} (d : α) : FieldInput α → Option (Option α)
  | .omitted => some (some d)
  | .null => some none
  | .value a => some (some a)

/-- Pydantic `f : T = d` (non-nullable with default): omitted parses to the
default, null is rejected. -/
def parseDefault {α : Type} (d : α) : FieldInput α → Option α
  | .omitted => some d
  | .null => none
  | .value a => some a

/-! ### Stored records (the values of the TASKS / HABITS dicts) -/

/-- A stored task record. `priority` is `Option Int` because `create_task`
stores an int but `update_task` can store an explicit null. -/
structure TaskRecord where
  id : String
  title : String
  description : Option String
  due_date : Option Nat
  priority : Option Int
  tags : List String
  completed : Bool
  created_at : Nat
  updated_at : Nat
deriving DecidableEq, Repr

/-- A stored habit record. -/
structure HabitRecord where
  id : String
  name : String
  description : Option String
  frequency : String
  target : Option Int
  unit : Option String
  tags : List String
  created_at : Nat
  updated_at : Nat
deriving DecidableEq, Repr

/-! ### Request bodies -/

/-- Parsed `TaskCreate` pydantic model (after defaults were applied). -/
structure TaskCreate where
  title : String
  description : Option String
  due_date : Option Nat
  priority : Option Int
  tags : List String
  completed : Bool
deriving DecidableEq, Repr

/-- Raw JSON body of a POST /tasks request, field by field. -/
structure RawTaskCreate where
  title : FieldInput String
  description : FieldInput String
  due_date : FieldInput Nat
  priority : FieldInput Int
  tags : FieldInput (List String)
  completed : FieldInput Bool
deriving DecidableEq, Repr

/-- Pydantic validation of `TaskCreate`: title required; description and
due_date `Optional[...] = None`; priority `Optional[int] = 3` (note: no
range constraint in the source); tags `List[str] = []` and completed
`bool = False` are non-nullable with defaults. Returns `none` on a 422. -/
def parseTaskCreate (r : RawTaskCreate) : Option TaskCreate := do
  let title ← parseRequired r.title
  let description ← parseNullable r.description
  let due_date ← parseNullable r.due_date
  let priority ← parseNullableDefault 3 r.priority
  let tags ← parseDefault [] r.tags
  let completed ← parseDefault false r.completed
  pure { title, description, due_date, priority, tags, completed }

/-- Parsed `TaskUpdate` after `model_dump(exclude_unset=True)`: the outer
`Option` is presence in the payload. For fields that are nullable in the
stored record the payload value is itself an `Option` (explicit null is
`some none`). -/
structure TaskUpdate where
  title : Option String
  description : Option (Option String)
  due_date : Option (Option Nat)
  priority : Option (Option Int)
  tags : Option (List String)
  completed : Option Bool
deriving DecidableEq, Repr

/-- The empty PATCH payload (no field set). -/
def TaskUpdate.empty : TaskUpdate :=
  { title := none, description := none, due_date := none, priority := none,
    tags := none, completed := none }

/-- Parsed `HabitCreate` pydantic model (after defaults were applied). -/
structure HabitCreate where
  name : String
  description : Option String
  frequency : String
  target : Option Int
  unit : Option String
  tags : List String
deriving DecidableEq, Repr

/-- Raw JSON body of a POST /habits request, field by field. -/
structure RawHabitCreate where
  name : FieldInput String
  description : FieldInput String
  frequency : FieldInput String
  target : FieldInput Int
  unit : FieldInput String
  tags : FieldInput (List String)
deriving DecidableEq, Repr

/-- Pydantic validation of `HabitCreate`: name required; frequency
`str = "daily"`; description, target, unit `Optional[...] = None`;
tags `List[str] = []`. Returns `none` on a 422. -/
def parseHabitCreate (r : RawHabitCreate) : Option HabitCreate := do
  let name ← parseRequired r.name
  let description ← parseNullable r.description
  let frequency ← parseDefault "daily" r.frequency
  let target ← parseNullable r.target
  let unit ← parseNullable r.unit
  let tags ← parseDefault [] r.tags
  pure { name, description, frequency, target, unit, tags }

/-- Parsed `HabitUpdate` after `model_dump(exclude_unset=True)`. -/
structure HabitUpdate where
  name : Option String
  description : Option (Option String)
  frequency : Option String
  target : Option (Option Int)
  unit : Option (Option String)
  tags : Option (List String)
deriving DecidableEq, Repr

/-- The empty habit PATCH payload. -/
def HabitUpdate.empty : HabitUpdate :=
  { name := none, description := none, frequency := none, target := none,
    unit := none, tags := none }

/-! ### The in-memory stores -/

section Store

variable {α : Type}

/-- `d.get(k)`: first (and in well-keyed states, only) record whose id is
`tid`. -/
def storeGet (id_of : α → String) (s : List α) (tid : String) : Option α :=
  s.find? fun t => id_of t == tid

/-- `d[k] = v`: replace in place if the key is present, else append —
Python dicts keep insertion order. -/
def storeSet (id_of : α → String) (s : List α) (tid : String) (r : α) : List α :=
  match storeGet id_of s tid with
  | some _ => s.map fun t => if id_of t == tid then r else t
  | none => s ++ [r]

/-- `del d[k]`. -/
def storeDel (id_of : α → String) (s : List α) (tid : String) : List α :=
  s.filter fun t => !(id_of t == tid)

end Store

/-- The `TASKS` dict. -/
abbrev TaskStore := List TaskRecord

/-- The `HABITS` dict. -/
abbrev HabitStore := List HabitRecord

/-! ### Task handlers -/

/-- `create_task`: stamp `created_at = updated_at = now`, build the record
(`priority if priority is not None else 3`, `tags or []`), store under the
fresh id, return the record. -/
def create_task (now : Nat) (task_id : String) (payload : TaskCreate)
    (tasks : TaskStore) : TaskStore × TaskRecord :=
  let record : TaskRecord :=
    { id := task_id
      title := payload.title
      description := payload.description
      due_date := payload.due_date
      priority := some (payload.priority.getD 3)
      tags := if payload.tags.isEmpty then [] else payload.tags
      completed := payload.completed
      created_at := now
      updated_at := now }
  (storeSet TaskRecord.id tasks task_id record, record)

/-- `get_task`: `TASKS.get(task_id)`, 404 when absent (`if not record`
is a None test here: stored records are never falsy). -/
def get_task (task_id : String) (tasks : TaskStore) : Except ApiError TaskRecord :=
  match storeGet TaskRecord.id tasks task_id with
  | none => .error (.notFound "Task not found")
  | some record => .ok record

/-- The merge loop of `update_task`: `for k, v in updates.items():
record[k] = v` — a field present in the payload overwrites the stored
value, an absent field is untouched. -/
def applyTaskUpdate (record : TaskRecord) (p : TaskUpdate) : TaskRecord :=
  { record with
    title := p.title.getD record.title
    description := p.description.getD record.description
    due_date := p.due_date.getD record.due_date
    priority := p.priority.getD record.priority
    tags := p.tags.getD record.tags
    completed := p.completed.getD record.completed }

/-- `update_task`: 404 when absent; otherwise merge the set fields,
refresh `updated_at`, store back, return the updated record. -/
def update_task (now : Nat) (task_id : String) (payload : TaskUpdate)
    (tasks : TaskStore) : Except ApiError (TaskStore × TaskRecord) :=
  match storeGet TaskRecord.id tasks task_id with
  | none => .error (.notFound "Task not found")
  | some record =>
    let record := { applyTaskUpdate record payload with updated_at := now }
    .ok (storeSet TaskRecord.id tasks task_id record, record)

/-- `delete_task`: 404 when absent, else remove, no content. -/
def delete_task (task_id : String) (tasks : TaskStore) : Except ApiError TaskStore :=
  match storeGet TaskRecord.id tasks task_id with
  | none => .error (.notFound "Task not found")
  | some _ => .ok (storeDel TaskRecord.id tasks task_id)

/-! ### Habit handlers -/

/-- `create_habit`: stamp both timestamps with `now`, build the record
(`tags or []`), store, return it. -/
def create_habit (now : Nat) (habit_id : String) (payload : HabitCreate)
    (habits : HabitStore) : HabitStore × HabitRecord :=
  let record : HabitRecord :=
    { id := habit_id
      name := payload.name
      description := payload.description
      frequency := payload.frequency
      target := payload.target
      unit := payload.unit
      tags := if payload.tags.isEmpty then [] else payload.tags
      created_at := now
      updated_at := now }
  (storeSet HabitRecord.id habits habit_id record, record)

/-- `get_habit`: 404 when absent. -/
def get_habit (habit_id : String) (habits : HabitStore) : Except ApiError HabitRecord :=
  match storeGet HabitRecord.id habits habit_id with
  | none => .error (.notFound "Habit not found")
  | some record => .ok record

/-- The merge loop of `update_habit`. -/
def applyHabitUpdate (record : HabitRecord) (p : HabitUpdate) : HabitRecord :=
  { record with
    name := p.name.getD record.name
    description := p.description.getD record.description
    frequency := p.frequency.getD record.frequency
    target := p.target.getD record.target
    unit := p.unit.getD record.unit
    tags := p.tags.getD record.tags }

/-- `update_habit`: 404 when absent; otherwise merge the set fields,
refresh `updated_at`, store back, return the updated record. -/
def update_habit (now : Nat) (habit_id : String) (payload : HabitUpdate)
    (habits : HabitStore) : Except ApiError (HabitStore × HabitRecord) :=
  match storeGet HabitRecord.id habits habit_id with
  | none => .error (.notFound "Habit not found")
  | some record =>
    let record := { applyHabitUpdate record payload with updated_at := now }
    .ok (storeSet HabitRecord.id habits habit_id record, record)

/-- `delete_habit`: 404 when absent, else remove, no content. -/
def delete_habit (habit_id : String) (habits : HabitStore) : Except ApiError HabitStore :=
  match storeGet HabitRecord.id habits habit_id with
  | none => .error (.notFound "Habit not found")
  | some _ => .ok (storeDel HabitRecord.id habits habit_id)

/-! ### List endpoints -/

/-- Python list slicing `l[start:stop]` for nonnegative bounds. -/
def pySlice {α : Type} (l : List α) (start stop : Nat) : List α :=
  (l.drop start).take (stop - start)

/-- `list_tasks`: apply the tag filter (`tag in t.get("tags", [])`) and the
completed filter (`t.get("completed") is completed`; identity on `bool`
values is equality), then slice to `[start:end]` with
`start = (page - 1) * size`, `end = start + size`. -/
def list_tasks (page size : Nat) (tag : Option String) (completed : Option Bool)
    (tasks : TaskStore) : List TaskRecord :=
  let items : List TaskRecord := tasks
  let items := match tag with
    | none => items
    | some tg => items.filter fun t => t.tags.contains tg
  let items := match completed with
    | none => items
    | some c => items.filter fun t => t.completed == c
  let start := (page - 1) * size
  pySlice items start (start + size)

/-- `list_habits`: tag filter, then the same slicing. -/
def list_habits (page size : Nat) (tag : Option String)
    (habits : HabitStore) : List HabitRecord :=
  let items : List HabitRecord := habits
  let items := match tag with
    | none => items
    | some tg => items.filter fun h => h.tags.contains tg
  let start := (page - 1) * size
  pySlice items start (start + size)

/-- Unused `Pagination` pydantic model: `page` defaults to 1, `size` to 20. -/
structure Pagination where
  page : Nat := 1
  size : Nat := 20
deriving DecidableEq, Repr

/-- `Query(50, ge=1, le=200)` default of the `size` parameter of
`list_tasks`. -/
def list_tasks_size_default : Nat := 50

/-- `Query(50, ge=1, le=200)` default of the `size` parameter of
`list_habits`. -/
def list_habits_size_default : Nat := 50

/-- The GET /tasks route including FastAPI query handling: an omitted
parameter takes its declared default, then `page ≥ 1` and
`1 ≤ size ≤ 200` are enforced (422, i.e. `none`, otherwise). -/
def list_tasks_route (page? size? : Option Nat) (tag : Option String)
    (completed : Option Bool) (tasks : TaskStore) : Option (List TaskRecord) :=
  let page := page?.getD 1
  let size := size?.getD list_tasks_size_default
  if 1 ≤ page ∧ 1 ≤ size ∧ size ≤ 200 then
    some (list_tasks page size tag completed tasks)
  else none

/-- The GET /habits route including FastAPI query handling. -/
def list_habits_route (page? size? : Option Nat) (tag : Option String)
    (habits : HabitStore) : Option (List HabitRecord) :=
  let page := page?.getD 1
  let size := size?.getD list_habits_size_default
  if 1 ≤ page ∧ 1 ≤ size ∧ size ≤ 200 then
    some (list_habits page size tag habits)
  else none

/-! ### Specification-side list semantics (for the refinement claims) -/

/-- Spec wording: a record matches when the given tag is a member of its
tag sequence and, when given, its completed value equals the filter. -/
def matchesTaskFilters (tag : Option String) (completed : Option Bool)
    (t : TaskRecord) : Bool :=
  (match tag with
    | none => true
    | some tg => t.tags.contains tg) &&
  (match completed with
    | none => true
    | some c => t.completed == c)

/-- Spec wording for habits: only the tag filter exists. -/
def matchesHabitFilters (tag : Option String) (h : HabitRecord) : Bool :=
  match tag with
  | none => true
  | some tg => h.tags.contains tg

/-- Spec wording of List: the subsequence of stored records matching all
provided filters, in storage order, restricted to indices
[(page-1)*size, (page-1)*size + size). -/
def listTasksSpec (page size : Nat) (tag : Option String) (completed : Option Bool)
    (tasks : TaskStore) : List TaskRecord :=
  (((tasks : List TaskRecord).filter (matchesTaskFilters tag completed)).drop
    ((page - 1) * size)).take size

/-- Spec wording of List for habits. -/
def listHabitsSpec (page size : Nat) (tag : Option String)
    (habits : HabitStore) : List HabitRecord :=
  (((habits : List HabitRecord).filter (matchesHabitFilters tag)).drop
    ((page - 1) * size)).take size

/-! ### Whole-application state and operation traces -/

/-- Both module-level stores. -/
structure AppState where
  tasks : TaskStore
  habits : HabitStore
deriving DecidableEq

/-- The state at module load: both dicts empty. -/
def AppState.empty : AppState := ⟨[], []⟩

/-- One API request, with the payload already validated. -/
inductive Op where
  | createTask (id : String) (p : TaskCreate)
  | updateTask (id : String) (p : TaskUpdate)
  | deleteTask (id : String)
  | getTask (id : String)
  | listTasks (page size : Nat) (tag : Option String) (completed : Option Bool)
  | createHabit (id : String) (p : HabitCreate)
  | updateHabit (id : String) (p : HabitUpdate)
  | deleteHabit (id : String)
  | getHabit (id : String)
  | listHabits (page size : Nat) (tag : Option String)
deriving DecidableEq, Repr

/-- Effect of one request on the stores; a failed update or delete leaves
the state unchanged, reads never change it. -/
def step (now : Nat) (op : Op) (s : AppState) : AppState :=
  match op with
  | .createTask id p => { s with tasks := (create_task now id p s.tasks).1 }
  | .updateTask id p =>
    match update_task now id p s.tasks with
    | .ok (ts, _) => { s with tasks := ts }
    | .error _ => s
  | .deleteTask id =>
    match delete_task id s.tasks with
    | .ok ts => { s with tasks := ts }
    | .error _ => s
  | .getTask _ => s
  | .listTasks _ _ _ _ => s
  | .createHabit id p => { s with habits := (create_habit now id p s.habits).1 }
  | .updateHabit id p =>
    match update_habit now id p s.habits with
    | .ok (hs, _) => { s with habits := hs }
    | .error _ => s
  | .deleteHabit id =>
    match delete_habit id s.habits with
    | .ok hs => { s with habits := hs }
    | .error _ => s
  | .getHabit _ => s
  | .listHabits _ _ _ => s

/-- Run a timed request sequence from a state. -/
def runTrace (trace : List (Nat × Op)) (s : AppState) : AppState :=
  match trace with
  | [] => s
  | (now, op) :: rest => runTrace rest (step now op s)

/-- Requests that touch (only) the TASKS dict. -/
def Op.isTaskOp : Op → Bool
  | .createTask _ _ | .updateTask _ _ | .deleteTask _ | .getTask _
  | .listTasks _ _ _ _ => true
  | _ => false

/-- Requests that touch (only) the HABITS dict. -/
def Op.isHabitOp : Op → Bool
  | .createHabit _ _ | .updateHabit _ _ | .deleteHabit _ | .getHabit _
  | .listHabits _ _ _ => true
  | _ => false

/-- Read-only requests. -/
def Op.isReadOp : Op → Bool
  | .getTask _ | .listTasks _ _ _ _ | .getHabit _ | .listHabits _ _ _ => true
  | _ => false

/-! ### Timestamp well-formedness (for the clock invariant) -/

/-- Every stored record satisfies `created_at ≤ updated_at` and was last
written no later than `bound`. -/
def tsWf (bound : Nat) (s : AppState) : Prop :=
  (∀ r ∈ s.tasks, r.created_at ≤ r.updated_at ∧ r.updated_at ≤ bound) ∧
  (∀ h ∈ s.habits, h.created_at ≤ h.updated_at ∧ h.updated_at ≤ bound)

/-! ### Concrete sample data -/

/-- Sample raw POST /tasks body. -/
def rawDemoTask : RawTaskCreate :=
  { title := .value "Buy milk", description := .omitted, due_date := .omitted,
    priority := .value 1, tags := .value ["home"], completed := .omitted }

/-- The parsed form of `rawDemoTask`. -/
def demoTask : TaskCreate :=
  { title := "Buy milk", description := none, due_date := none,
    priority := some 1, tags := ["home"], completed := false }

/-- Sample raw POST /tasks body whose priority is explicitly null. -/
def rawNullPriorityTask : RawTaskCreate :=
  { title := .value "np", description := .omitted, due_date := .omitted,
    priority := .null, tags := .omitted, completed := .omitted }

/-- The parsed form of `rawNullPriorityTask`. -/
def nullPriorityTask : TaskCreate :=
  { title := "np", description := none, due_date := none,
    priority := none, tags := [], completed := false }

/-- Sample raw POST /tasks body with priority 100 (outside [1,5]). -/
def rawPriority100Task : RawTaskCreate :=
  { title := .value "p100", description := .omitted, due_date := .omitted,
    priority := .value 100, tags := .omitted, completed := .omitted }

/-- The parsed form of `rawPriority100Task`. -/
def priority100Task : TaskCreate :=
  { title := "p100", description := none, due_date := none,
    priority := some 100, tags := [], completed := false }

/-- Sample PATCH /tasks body setting only `completed`. -/
def demoTaskPatch : TaskUpdate :=
  { TaskUpdate.empty with completed := some true }

/-- Sample PATCH /tasks body setting `priority` explicitly to null. -/
def nullPriorityPatch : TaskUpdate :=
  { TaskUpdate.empty with priority := some none }

/-- Sample raw POST /habits body. -/
def rawDemoHabit : RawHabitCreate :=
  { name := .value "Run", description := .omitted, frequency := .omitted,
    target := .omitted, unit := .omitted, tags := .value ["fit"] }

/-- The parsed form of `rawDemoHabit`. -/
def demoHabit : HabitCreate :=
  { name := "Run", description := none, frequency := "daily",
    target := none, unit := none, tags := ["fit"] }

/-- Sample PATCH /habits body setting only `target`. -/
def demoHabitPatch : HabitUpdate :=
  { HabitUpdate.empty with target := some (some 10) }

/-- TASKS after one sample create. -/
def demoTasks1 : TaskStore := (create_task 1 "t1" demoTask []).1

/-- The record stored by that create. -/
def demoTaskRec : TaskRecord := (create_task 1 "t1" demoTask []).2

/-- HABITS after one sample create. -/
def demoHabits1 : HabitStore := (create_habit 1 "h1" demoHabit []).1

/-- The record stored by that create. -/
def demoHabitRec : HabitRecord := (create_habit 1 "h1" demoHabit []).2

/-- A sample request sequence with nondecreasing times. -/
def demoTrace : List (Nat × Op) :=
  [(1, .createTask "t1" demoTask),
   (2, .updateTask "t1" demoTaskPatch),
   (3, .createHabit "h1" demoHabit),
   (4, .updateHabit "h1" demoHabitPatch),
   (5, .deleteTask "missing")]

/-- The task record left in the store by `demoTrace`. -/
def demoTraceTaskRec : TaskRecord :=
  { id := "t1", title := "Buy milk", description := none, due_date := none,
    priority := some 1, tags := ["home"], completed := true,
    created_at := 1, updated_at := 2 }

/-- The habit record left in the store by `demoTrace`. -/
def demoTraceHabitRec : HabitRecord :=
  { id := "h1", name := "Run", description := none, frequency := "daily",
    target := some 10, unit := none, tags := ["fit"],
    created_at := 3, updated_at := 4 }

/-! ### Store lemmas -/

section StoreLemmas

variable {α : Type} (id_of : α → String)

theorem find?_replace (tid : String) (r : α) (hid : id_of r = tid) :
    ∀ (s : List α) (t0 : α), s.find? (fun t => id_of t == tid) = some t0 →
      (s.map fun t => if id_of t == tid then r else t).find?
        (fun t => id_of t == tid) = some r := by
  intro s
  induction s with
  | nil => intro t0 h; simp at h
  | cons a as ih =>
    intro t0 h
    rw [List.find?_cons] at h
    simp only [List.map_cons, List.find?_cons]
    cases hpa : (id_of a == tid) with
    | true => simp [hpa, hid]
    | false =>
      simp only [hpa, Bool.false_eq_true, if_false] at h ⊢
      exact ih t0 h

/-- After `d[k] = v` with `v` carrying key `k`, `d.get(k)` returns `v`. -/
theorem storeGet_storeSet_self (s : List α) (tid : String) (r : α)
    (hid : id_of r = tid) :
    storeGet id_of (storeSet id_of s tid r) tid = some r := by
  unfold storeSet
  cases h : storeGet id_of s tid with
  | none =>
    unfold storeGet at h ⊢
    simp [List.find?_append, h, hid]
  | some t0 =>
    unfold storeGet at h ⊢
    exact find?_replace id_of tid r hid s t0 h

/-- After `del d[k]`, `d.get(k)` returns nothing. -/
theorem storeGet_storeDel_self (s : List α) (tid : String) :
    storeGet id_of (storeDel id_of s tid) tid = none := by
  unfold storeGet storeDel
  rw [List.find?_eq_none]
  intro a ha
  have h := (List.mem_filter.mp ha).2
  simp_all

/-- Every member of `storeSet s tid r` is `r` or was already a member. -/
theorem mem_storeSet (s : List α) (tid : String) (r x : α)
    (hx : x ∈ storeSet id_of s tid r) : x = r ∨ x ∈ s := by
  unfold storeSet at hx
  cases h : storeGet id_of s tid with
  | none =>
    rw [h] at hx
    rcases List.mem_append.mp hx with h1 | h1
    · exact .inr h1
    · simp at h1; exact .inl h1
  | some t0 =>
    rw [h] at hx
    rcases List.mem_map.mp hx with ⟨t, ht, rfl⟩
    by_cases hti : (id_of t == tid) = true
    · rw [if_pos hti]; exact .inl rfl
    · rw [if_neg hti]; exact .inr ht

/-- Deletion only removes members. -/
theorem mem_storeDel (s : List α) (tid : String) (x : α)
    (hx : x ∈ storeDel id_of s tid) : x ∈ s :=
  (List.mem_filter.mp hx).1

/-- A successful `d.get(k)` returns a member of the store. -/
theorem storeGet_mem (s : List α) (tid : String) (r : α)
    (h : storeGet id_of s tid = some r) : r ∈ s :=
  List.mem_of_find?_eq_some h

/-- `d.get(k)` fails exactly when no member carries the key. -/
theorem storeGet_eq_none_iff (s : List α) (tid : String) :
    storeGet id_of s tid = none ↔ ∀ r ∈ s, id_of r ≠ tid := by
  unfold storeGet
  rw [List.find?_eq_none]
  simp

end StoreLemmas

/-! ### List endpoint refinement lemmas -/

theorem list_tasks_eq_spec (page size : Nat) (tag : Option String)
    (completed : Option Bool) (tasks : TaskStore) :
    list_tasks page size tag completed tasks =
      listTasksSpec page size tag completed tasks := by
  unfold list_tasks listTasksSpec pySlice matchesTaskFilters
  cases tag with
  | none =>
    cases completed with
    | none => simp [Nat.add_sub_cancel_left]
    | some c => simp [Nat.add_sub_cancel_left]
  | some tg =>
    cases completed with
    | none => simp [Nat.add_sub_cancel_left]
    | some c =>
      simp only [List.filter_filter, Nat.add_sub_cancel_left]
      have hf : List.filter (fun a => a.completed == c && a.tags.contains tg) tasks =
          List.filter (fun t => t.tags.contains tg && t.completed == c) tasks :=
        List.filter_congr fun a _ => Bool.and_comm _ _
      rw [hf]

theorem list_habits_eq_spec (page size : Nat) (tag : Option String)
    (habits : HabitStore) :
    list_habits page size tag habits = listHabitsSpec page size tag habits := by
  unfold list_habits listHabitsSpec pySlice matchesHabitFilters
  cases tag with
  | none => simp [Nat.add_sub_cancel_left]
  | some tg => simp [Nat.add_sub_cancel_left]

/-! ### Create/get round trip -/

theorem get_after_create_task (now : Nat) (tid : String) (p : TaskCreate)
    (tasks : TaskStore) :
    get_task tid (create_task now tid p tasks).1 =
      .ok (create_task now tid p tasks).2 := by
  show get_task tid (storeSet TaskRecord.id tasks tid (create_task now tid p tasks).2) = _
  unfold get_task
  rw [storeGet_storeSet_self TaskRecord.id tasks tid _ rfl]

theorem get_after_create_habit (now : Nat) (hid : String) (p : HabitCreate)
    (habits : HabitStore) :
    get_habit hid (create_habit now hid p habits).1 =
      .ok (create_habit now hid p habits).2 := by
  show get_habit hid (storeSet HabitRecord.id habits hid (create_habit now hid p habits).2) = _
  unfold get_habit
  rw [storeGet_storeSet_self HabitRecord.id habits hid _ rfl]

/-! ### Preservation of timestamp well-formedness -/

theorem tsWf_mono {b b2 : Nat} (hb : b ≤ b2) {s : AppState} (h : tsWf b s) :
    tsWf b2 s :=
  ⟨fun r hr => ⟨(h.1 r hr).1, le_trans (h.1 r hr).2 hb⟩,
   fun r hr => ⟨(h.2 r hr).1, le_trans (h.2 r hr).2 hb⟩⟩

theorem tasksWf_create {b now : Nat} (hb : b ≤ now) {s : TaskStore}
    (h : ∀ r ∈ s, r.created_at ≤ r.updated_at ∧ r.updated_at ≤ b)
    (id : String) (p : TaskCreate) :
    ∀ r ∈ (create_task now id p s).1,
      r.created_at ≤ r.updated_at ∧ r.updated_at ≤ now := by
  intro r hr
  rw [show (create_task now id p s).1 =
      storeSet TaskRecord.id s id (create_task now id p s).2 from rfl] at hr
  rcases mem_storeSet TaskRecord.id s id _ r hr with rfl | hmem
  · exact ⟨le_refl _, le_refl _⟩
  · exact ⟨(h r hmem).1, le_trans (h r hmem).2 hb⟩

theorem habitsWf_create {b now : Nat} (hb : b ≤ now) {s : HabitStore}
    (h : ∀ r ∈ s, r.created_at ≤ r.updated_at ∧ r.updated_at ≤ b)
    (id : String) (p : HabitCreate) :
    ∀ r ∈ (create_habit now id p s).1,
      r.created_at ≤ r.updated_at ∧ r.updated_at ≤ now := by
  intro r hr
  rw [show (create_habit now id p s).1 =
      storeSet HabitRecord.id s id (create_habit now id p s).2 from rfl] at hr
  rcases mem_storeSet HabitRecord.id s id _ r hr with rfl | hmem
  · exact ⟨le_refl _, le_refl _⟩
  · exact ⟨(h r hmem).1, le_trans (h r hmem).2 hb⟩

theorem tasksWf_update {b now : Nat} (hb : b ≤ now) {s : TaskStore}
    (h : ∀ r ∈ s, r.created_at ≤ r.updated_at ∧ r.updated_at ≤ b)
    (tid : String) (p : TaskUpdate) :
    ∀ (s1 : TaskStore) (r1 : TaskRecord), update_task now tid p s = .ok (s1, r1) →
      ∀ r ∈ s1, r.created_at ≤ r.updated_at ∧ r.updated_at ≤ now := by
  intro s1 r1 hu r hr
  unfold update_task at hu
  cases hg : storeGet TaskRecord.id s tid with
  | none => rw [hg] at hu; exact absurd hu (by simp)
  | some r0 =>
    rw [hg] at hu
    have hs1 : storeSet TaskRecord.id s tid
        { applyTaskUpdate r0 p with updated_at := now } = s1 :=
      congrArg Prod.fst (Except.ok.inj hu)
    rw [← hs1] at hr
    rcases mem_storeSet TaskRecord.id s tid _ r hr with rfl | hmem
    · have h0 := h r0 (storeGet_mem TaskRecord.id s tid r0 hg)
      exact ⟨le_trans (le_trans h0.1 h0.2) hb, le_refl _⟩
    · exact ⟨(h r hmem).1, le_trans (h r hmem).2 hb⟩

theorem habitsWf_update {b now : Nat} (hb : b ≤ now) {s : HabitStore}
    (h : ∀ r ∈ s, r.created_at ≤ r.updated_at ∧ r.updated_at ≤ b)
    (hid : String) (p : HabitUpdate) :
    ∀ (s1 : HabitStore) (r1 : HabitRecord), update_habit now hid p s = .ok (s1, r1) →
      ∀ r ∈ s1, r.created_at ≤ r.updated_at ∧ r.updated_at ≤ now := by
  intro s1 r1 hu r hr
  unfold update_habit at hu
  cases hg : storeGet HabitRecord.id s hid with
  | none => rw [hg] at hu; exact absurd hu (by simp)
  | some r0 =>
    rw [hg] at hu
    have hs1 : storeSet HabitRecord.id s hid
        { applyHabitUpdate r0 p with updated_at := now } = s1 :=
      congrArg Prod.fst (Except.ok.inj hu)
    rw [← hs1] at hr
    rcases mem_storeSet HabitRecord.id s hid _ r hr with rfl | hmem
    · have h0 := h r0 (storeGet_mem HabitRecord.id s hid r0 hg)
      exact ⟨le_trans (le_trans h0.1 h0.2) hb, le_refl _⟩
    · exact ⟨(h r hmem).1, le_trans (h r hmem).2 hb⟩

theorem tasksWf_delete {b now : Nat} (hb : b ≤ now) {s : TaskStore}
    (h : ∀ r ∈ s, r.created_at ≤ r.updated_at ∧ r.updated_at ≤ b)
    (tid : String) :
    ∀ (s1 : TaskStore), delete_task tid s = .ok s1 →
      ∀ r ∈ s1, r.created_at ≤ r.updated_at ∧ r.updated_at ≤ now := by
  intro s1 hd r hr
  unfold delete_task at hd
  cases hg : storeGet TaskRecord.id s tid with
  | none => rw [hg] at hd; exact absurd hd (by simp)
  | some r0 =>
    rw [hg] at hd
    rw [← Except.ok.inj hd] at hr
    have hmem := mem_storeDel TaskRecord.id s tid r hr
    exact ⟨(h r hmem).1, le_trans (h r hmem).2 hb⟩

theorem habitsWf_delete {b now : Nat} (hb : b ≤ now) {s : HabitStore}
    (h : ∀ r ∈ s, r.created_at ≤ r.updated_at ∧ r.updated_at ≤ b)
    (hid : String) :
    ∀ (s1 : HabitStore), delete_habit hid s = .ok s1 →
      ∀ r ∈ s1, r.created_at ≤ r.updated_at ∧ r.updated_at ≤ now := by
  intro s1 hd r hr
  unfold delete_habit at hd
  cases hg : storeGet HabitRecord.id s hid with
  | none => rw [hg] at hd; exact absurd hd (by simp)
  | some r0 =>
    rw [hg] at hd
    rw [← Except.ok.inj hd] at hr
    have hmem := mem_storeDel HabitRecord.id s hid r hr
    exact ⟨(h r hmem).1, le_trans (h r hmem).2 hb⟩

/-- One request at time `now ≥ b` keeps every stored record well-formed. -/
theorem step_tsWf {b now : Nat} (hb : b ≤ now) {s : AppState} (h : tsWf b s)
    (op : Op) : tsWf now (step now op s) := by
  have h2 := tsWf_mono hb h
  cases op with
  | createTask id p => exact ⟨tasksWf_create hb h.1 id p, h2.2⟩
  | updateTask id p =>
    simp only [step]
    cases hu : update_task now id p s.tasks with
    | error e => exact h2
    | ok pair =>
      obtain ⟨ts, r1⟩ := pair
      exact ⟨tasksWf_update hb h.1 id p ts r1 hu, h2.2⟩
  | deleteTask id =>
    simp only [step]
    cases hd : delete_task id s.tasks with
    | error e => exact h2
    | ok ts => exact ⟨tasksWf_delete hb h.1 id ts hd, h2.2⟩
  | getTask id => exact h2
  | listTasks page size tag completed => exact h2
  | createHabit id p => exact ⟨h2.1, habitsWf_create hb h.2 id p⟩
  | updateHabit id p =>
    simp only [step]
    cases hu : update_habit now id p s.habits with
    | error e => exact h2
    | ok pair =>
      obtain ⟨hs, r1⟩ := pair
      exact ⟨h2.1, habitsWf_update hb h.2 id p hs r1 hu⟩
  | deleteHabit id =>
    simp only [step]
    cases hd : delete_habit id s.habits with
    | error e => exact h2
    | ok hs => exact ⟨h2.1, habitsWf_delete hb h.2 id hs hd⟩
  | getHabit id => exact h2
  | listHabits page size tag => exact h2

/-- A trace whose times never decrease keeps the state well-formed. -/
theorem runTrace_tsWf :
    ∀ (trace : List (Nat × Op)) (s : AppState) (b : Nat), tsWf b s →
      List.Chain' (· ≤ ·) (b :: trace.map Prod.fst) →
      ∃ b2, tsWf b2 (runTrace trace s) := by
  intro trace
  induction trace with
  | nil => exact fun s b h _ => ⟨b, h⟩
  | cons hd tl ih =>
    intro s b h hchain
    simp only [List.map_cons, List.chain'_cons] at hchain
    exact ih (step hd.1 hd.2 s) hd.1 (step_tsWf hchain.1 h hd.2) hchain.2

/-! ### The claims -/

/-- C1: for every valid create payload, creating a task (or habit) and then
getting it by the returned identifier succeeds and yields the created
response itself, with server-assigned id, created_at and updated_at
populated and created_at = updated_at at creation. -/
theorem c1_create_then_get
    (rawT : RawTaskCreate) (pt : TaskCreate) (_hpt : parseTaskCreate rawT = some pt)
    (rawH : RawHabitCreate) (ph : HabitCreate) (_hph : parseHabitCreate rawH = some ph)
    (now : Nat) (tid hid : String) (tasks : TaskStore) (habits : HabitStore) :
    (get_task tid (create_task now tid pt tasks).1 =
        .ok (create_task now tid pt tasks).2 ∧
      (create_task now tid pt tasks).2.id = tid ∧
      (create_task now tid pt tasks).2.created_at = now ∧
      (create_task now tid pt tasks).2.updated_at = now ∧
      (create_task now tid pt tasks).2.created_at =
        (create_task now tid pt tasks).2.updated_at) ∧
    (get_habit hid (create_habit now hid ph habits).1 =
        .ok (create_habit now hid ph habits).2 ∧
      (create_habit now hid ph habits).2.id = hid ∧
      (create_habit now hid ph habits).2.created_at = now ∧
      (create_habit now hid ph habits).2.updated_at = now ∧
      (create_habit now hid ph habits).2.created_at =
        (create_habit now hid ph habits).2.updated_at) :=
  ⟨⟨get_after_create_task now tid pt tasks, rfl, rfl, rfl, rfl⟩,
   ⟨get_after_create_habit now hid ph habits, rfl, rfl, rfl, rfl⟩⟩

/-- Witness for C1 at a concrete payload, time and identifier. -/
theorem c1_create_then_get_witness :
    (get_task "t1" (create_task 1 "t1" demoTask []).1 =
        .ok (create_task 1 "t1" demoTask []).2 ∧
      (create_task 1 "t1" demoTask []).2.id = "t1" ∧
      (create_task 1 "t1" demoTask []).2.created_at = 1 ∧
      (create_task 1 "t1" demoTask []).2.updated_at = 1 ∧
      (create_task 1 "t1" demoTask []).2.created_at =
        (create_task 1 "t1" demoTask []).2.updated_at) ∧
    (get_habit "h1" (create_habit 1 "h1" demoHabit []).1 =
        .ok (create_habit 1 "h1" demoHabit []).2 ∧
      (create_habit 1 "h1" demoHabit []).2.id = "h1" ∧
      (create_habit 1 "h1" demoHabit []).2.created_at = 1 ∧
      (create_habit 1 "h1" demoHabit []).2.updated_at = 1 ∧
      (create_habit 1 "h1" demoHabit []).2.created_at =
        (create_habit 1 "h1" demoHabit []).2.updated_at) :=
  c1_create_then_get rawDemoTask demoTask rfl rawDemoHabit demoHabit rfl
    1 "t1" "h1" [] []

/-- C2: a partial update changes exactly the fields present in the payload
plus updated_at; absent fields — including created_at, the id and nullable
fields that were merely omitted — keep their prior values. -/
theorem c2_update_frame (now : Nat) :
    (∀ (tid : String) (s : TaskStore) (p : TaskUpdate) (r : TaskRecord),
      storeGet TaskRecord.id s tid = some r →
      ∃ r1, update_task now tid p s = .ok (storeSet TaskRecord.id s tid r1, r1) ∧
        r1.id = r.id ∧
        r1.created_at = r.created_at ∧
        r1.updated_at = now ∧
        r1.title = p.title.getD r.title ∧
        r1.description = p.description.getD r.description ∧
        r1.due_date = p.due_date.getD r.due_date ∧
        r1.priority = p.priority.getD r.priority ∧
        r1.tags = p.tags.getD r.tags ∧
        r1.completed = p.completed.getD r.completed) ∧
    (∀ (hid : String) (s : HabitStore) (p : HabitUpdate) (r : HabitRecord),
      storeGet HabitRecord.id s hid = some r →
      ∃ r1, update_habit now hid p s = .ok (storeSet HabitRecord.id s hid r1, r1) ∧
        r1.id = r.id ∧
        r1.created_at = r.created_at ∧
        r1.updated_at = now ∧
        r1.name = p.name.getD r.name ∧
        r1.description = p.description.getD r.description ∧
        r1.frequency = p.frequency.getD r.frequency ∧
        r1.target = p.target.getD r.target ∧
        r1.unit = p.unit.getD r.unit ∧
        r1.tags = p.tags.getD r.tags) := by
  constructor
  · intro tid s p r hr
    refine ⟨{ applyTaskUpdate r p with updated_at := now },
      ?_, rfl, rfl, rfl, rfl, rfl, rfl, rfl, rfl, rfl⟩
    unfold update_task
    rw [hr]
  · intro hid s p r hr
    refine ⟨{ applyHabitUpdate r p with updated_at := now },
      ?_, rfl, rfl, rfl, rfl, rfl, rfl, rfl, rfl, rfl⟩
    unfold update_habit
    rw [hr]

/-- Witness for C2 at a concrete store and single-field payloads. -/
theorem c2_update_frame_witness :
    (∃ r1, update_task 9 "t1" demoTaskPatch demoTasks1 =
        .ok (storeSet TaskRecord.id demoTasks1 "t1" r1, r1) ∧
      r1.id = demoTaskRec.id ∧
      r1.created_at = demoTaskRec.created_at ∧
      r1.updated_at = 9 ∧
      r1.title = demoTaskPatch.title.getD demoTaskRec.title ∧
      r1.description = demoTaskPatch.description.getD demoTaskRec.description ∧
      r1.due_date = demoTaskPatch.due_date.getD demoTaskRec.due_date ∧
      r1.priority = demoTaskPatch.priority.getD demoTaskRec.priority ∧
      r1.tags = demoTaskPatch.tags.getD demoTaskRec.tags ∧
      r1.completed = demoTaskPatch.completed.getD demoTaskRec.completed) ∧
    (∃ r1, update_habit 9 "h1" demoHabitPatch demoHabits1 =
        .ok (storeSet HabitRecord.id demoHabits1 "h1" r1, r1) ∧
      r1.id = demoHabitRec.id ∧
      r1.created_at = demoHabitRec.created_at ∧
      r1.updated_at = 9 ∧
      r1.name = demoHabitPatch.name.getD demoHabitRec.name ∧
      r1.description = demoHabitPatch.description.getD demoHabitRec.description ∧
      r1.frequency = demoHabitPatch.frequency.getD demoHabitRec.frequency ∧
      r1.target = demoHabitPatch.target.getD demoHabitRec.target ∧
      r1.unit = demoHabitPatch.unit.getD demoHabitRec.unit ∧
      r1.tags = demoHabitPatch.tags.getD demoHabitRec.tags) :=
  ⟨(c2_update_frame 9).1 "t1" demoTasks1 demoTaskPatch demoTaskRec rfl,
   (c2_update_frame 9).2 "h1" demoHabits1 demoHabitPatch demoHabitRec rfl⟩

/-- C3 fails on the code: `TaskBase.priority` and `TaskUpdate.priority` have
no range constraint, so a create with priority 100 passes validation and the
value 100 is stored, and a later update can store 200 — contradicting both
the claimed 422 rejection and the claim that only priorities in [1,5] are
ever stored. -/
theorem c3_priority_not_validated :
    parseTaskCreate rawPriority100Task = some priority100Task ∧
    (create_task 0 "t1" priority100Task []).2.priority = some 100 ∧
    storeGet TaskRecord.id (create_task 0 "t1" priority100Task []).1 "t1" =
      some (create_task 0 "t1" priority100Task []).2 ∧
    (update_task 1 "t1" { TaskUpdate.empty with priority := some (some 200) }
        (create_task 0 "t1" priority100Task []).1).toOption.map
      (fun x => x.2.priority) = some (some 200) :=
  ⟨rfl, rfl, rfl, rfl⟩

/-- C4 fails on the code: both `list_tasks` and `list_habits` declare
`Query(50, ...)` as the size default, so the per-resource defaults are not
50 for one resource and 20 for the other. -/
theorem c4_default_size_counterexample :
    ¬ ((list_tasks_size_default = 50 ∧ list_habits_size_default = 20) ∨
       (list_tasks_size_default = 20 ∧ list_habits_size_default = 50)) := by
  decide

/-- C4 amended: when the size query parameter is omitted, both resources use
the same default page size 50 (the unused `Pagination` model declares 20,
but no list endpoint reads it). -/
theorem c4_default_size_amended (tag : Option String) (completed : Option Bool)
    (tasks : TaskStore) (habits : HabitStore) :
    list_tasks_size_default = 50 ∧
    list_habits_size_default = 50 ∧
    list_tasks_route none none tag completed tasks =
      some (list_tasks 1 50 tag completed tasks) ∧
    list_habits_route none none tag habits =
      some (list_habits 1 50 tag habits) ∧
    ({} : Pagination).size = 20 :=
  ⟨rfl, rfl, rfl, rfl, rfl⟩

/-- Witness for the amended C4 on concrete one-record stores. -/
theorem c4_default_size_amended_witness :
    list_tasks_size_default = 50 ∧
    list_habits_size_default = 50 ∧
    list_tasks_route none none none none demoTasks1 =
      some (list_tasks 1 50 none none demoTasks1) ∧
    list_habits_route none none none demoHabits1 =
      some (list_habits 1 50 none demoHabits1) ∧
    ({} : Pagination).size = 20 :=
  c4_default_size_amended none none demoTasks1 demoHabits1

/-- C5: for every store and valid list request, the result is the
subsequence of stored records satisfying all provided filters, in storage
order, restricted to the index range [(page-1)*size, (page-1)*size+size);
an omitted filter imposes no restriction. -/
theorem c5_list_filter_slice (page size : Nat)
    (_h1 : 1 ≤ page) (_h2 : 1 ≤ size) (_h3 : size ≤ 200) :
    (∀ (tag : Option String) (completed : Option Bool) (tasks : TaskStore),
      list_tasks page size tag completed tasks =
        listTasksSpec page size tag completed tasks) ∧
    (∀ (tag : Option String) (habits : HabitStore),
      list_habits page size tag habits = listHabitsSpec page size tag habits) :=
  ⟨fun tag completed tasks => list_tasks_eq_spec page size tag completed tasks,
   fun tag habits => list_habits_eq_spec page size tag habits⟩

/-- Witness for C5 on concrete one-record stores with both filters given. -/
theorem c5_list_filter_slice_witness :
    list_tasks 1 50 (some "home") (some false) demoTasks1 =
      listTasksSpec 1 50 (some "home") (some false) demoTasks1 ∧
    list_habits 1 50 (some "fit") demoHabits1 =
      listHabitsSpec 1 50 (some "fit") demoHabits1 :=
  ⟨(c5_list_filter_slice 1 50 (by decide) (by decide) (by decide)).1
      (some "home") (some false) demoTasks1,
   (c5_list_filter_slice 1 50 (by decide) (by decide) (by decide)).2
      (some "fit") demoHabits1⟩

/-- C6: whenever (page-1)*size is at least the number of records matching
the provided filters, the list endpoints return the empty sequence (and no
error). -/
theorem c6_out_of_range_page_empty (page size : Nat)
    (_h1 : 1 ≤ page) (_h2 : 1 ≤ size) (_h3 : size ≤ 200) :
    (∀ (tag : Option String) (completed : Option Bool) (tasks : TaskStore),
      (tasks.filter (matchesTaskFilters tag completed)).length ≤ (page - 1) * size →
      list_tasks page size tag completed tasks = []) ∧
    (∀ (tag : Option String) (habits : HabitStore),
      (habits.filter (matchesHabitFilters tag)).length ≤ (page - 1) * size →
      list_habits page size tag habits = []) := by
  constructor
  · intro tag completed tasks h
    rw [list_tasks_eq_spec]
    unfold listTasksSpec
    rw [List.drop_eq_nil_of_le h, List.take_nil]
  · intro tag habits h
    rw [list_habits_eq_spec]
    unfold listHabitsSpec
    rw [List.drop_eq_nil_of_le h, List.take_nil]

/-- Witness for C6: page 2 of size 200 over one-record stores is empty. -/
theorem c6_out_of_range_page_empty_witness :
    list_tasks 2 200 none none demoTasks1 = [] ∧
    list_habits 2 200 none demoHabits1 = [] :=
  ⟨(c6_out_of_range_page_empty 2 200 (by decide) (by decide) (by decide)).1
      none none demoTasks1 (by decide),
   (c6_out_of_range_page_empty 2 200 (by decide) (by decide) (by decide)).2
      none demoHabits1 (by decide)⟩

/-- C7: delete fails with NotFound exactly when the identifier is absent;
otherwise it removes the record, after which a get and a second delete of
the same identifier both fail with NotFound. -/
theorem c7_delete_semantics (tid hid : String) :
    (∀ (tasks : TaskStore),
      (delete_task tid tasks = .error (.notFound "Task not found") ↔
        storeGet TaskRecord.id tasks tid = none) ∧
      (∀ s1, delete_task tid tasks = .ok s1 →
        s1 = storeDel TaskRecord.id tasks tid ∧
        get_task tid s1 = .error (.notFound "Task not found") ∧
        delete_task tid s1 = .error (.notFound "Task not found"))) ∧
    (∀ (habits : HabitStore),
      (delete_habit hid habits = .error (.notFound "Habit not found") ↔
        storeGet HabitRecord.id habits hid = none) ∧
      (∀ s1, delete_habit hid habits = .ok s1 →
        s1 = storeDel HabitRecord.id habits hid ∧
        get_habit hid s1 = .error (.notFound "Habit not found") ∧
        delete_habit hid s1 = .error (.notFound "Habit not found"))) := by
  constructor
  · intro tasks
    constructor
    · unfold delete_task
      cases hg : storeGet TaskRecord.id tasks tid with
      | none => simp
      | some r => simp
    · intro s1 hdel
      unfold delete_task at hdel
      cases hg : storeGet TaskRecord.id tasks tid with
      | none => rw [hg] at hdel; exact absurd hdel (by simp)
      | some r =>
        rw [hg] at hdel
        have hs1 : s1 = storeDel TaskRecord.id tasks tid :=
          (Except.ok.inj hdel).symm
        subst hs1
        refine ⟨rfl, ?_, ?_⟩
        · unfold get_task
          rw [storeGet_storeDel_self]
        · unfold delete_task
          rw [storeGet_storeDel_self]
  · intro habits
    constructor
    · unfold delete_habit
      cases hg : storeGet HabitRecord.id habits hid with
      | none => simp
      | some r => simp
    · intro s1 hdel
      unfold delete_habit at hdel
      cases hg : storeGet HabitRecord.id habits hid with
      | none => rw [hg] at hdel; exact absurd hdel (by simp)
      | some r =>
        rw [hg] at hdel
        have hs1 : s1 = storeDel HabitRecord.id habits hid :=
          (Except.ok.inj hdel).symm
        subst hs1
        refine ⟨rfl, ?_, ?_⟩
        · unfold get_habit
          rw [storeGet_storeDel_self]
        · unfold delete_habit
          rw [storeGet_storeDel_self]

/-- Witness for C7: deleting the only record empties the store, after which
get and delete both 404. -/
theorem c7_delete_semantics_witness :
    ([] : TaskStore) = storeDel TaskRecord.id demoTasks1 "t1" ∧
    get_task "t1" [] = .error (.notFound "Task not found") ∧
    delete_task "t1" [] = .error (.notFound "Task not found") ∧
    ([] : HabitStore) = storeDel HabitRecord.id demoHabits1 "h1" ∧
    get_habit "h1" [] = .error (.notFound "Habit not found") ∧
    delete_habit "h1" [] = .error (.notFound "Habit not found") := by
  have ht := ((c7_delete_semantics "t1" "h1").1 demoTasks1).2 [] rfl
  have hh := ((c7_delete_semantics "t1" "h1").2 demoHabits1).2 [] rfl
  exact ⟨ht.1, ht.2.1, ht.2.2, hh.1, hh.2.1, hh.2.2⟩

/-- C8: under a nondecreasing clock, every record reachable from the empty
state by create/update/delete (and read) requests satisfies
created_at ≤ updated_at; create establishes the two timestamps equal, and
an update of a record last written no later than the current time preserves
the inequality. -/
theorem c8_timestamp_invariant (trace : List (Nat × Op))
    (hmono : List.Chain' (· ≤ ·) (trace.map Prod.fst)) :
    (∀ r ∈ (runTrace trace AppState.empty).tasks,
      r.created_at ≤ r.updated_at) ∧
    (∀ h ∈ (runTrace trace AppState.empty).habits,
      h.created_at ≤ h.updated_at) ∧
    (∀ (now : Nat) (id : String) (p : TaskCreate) (s : TaskStore),
      (create_task now id p s).2.created_at = (create_task now id p s).2.updated_at) ∧
    (∀ (now : Nat) (id : String) (p : HabitCreate) (s : HabitStore),
      (create_habit now id p s).2.created_at = (create_habit now id p s).2.updated_at) ∧
    (∀ (now : Nat) (tid : String) (p : TaskUpdate) (s : TaskStore) (r0 : TaskRecord),
      storeGet TaskRecord.id s tid = some r0 →
      r0.created_at ≤ r0.updated_at → r0.updated_at ≤ now →
      ∀ (s1 : TaskStore) (r1 : TaskRecord),
        update_task now tid p s = .ok (s1, r1) →
        r1.created_at ≤ r1.updated_at) ∧
    (∀ (now : Nat) (hid : String) (p : HabitUpdate) (s : HabitStore) (r0 : HabitRecord),
      storeGet HabitRecord.id s hid = some r0 →
      r0.created_at ≤ r0.updated_at → r0.updated_at ≤ now →
      ∀ (s1 : HabitStore) (r1 : HabitRecord),
        update_habit now hid p s = .ok (s1, r1) →
        r1.created_at ≤ r1.updated_at) := by
  have hempty : tsWf 0 AppState.empty :=
    ⟨fun r hr => absurd hr (List.not_mem_nil r),
     fun r hr => absurd hr (List.not_mem_nil r)⟩
  have hchain : List.Chain' (· ≤ ·) (0 :: trace.map Prod.fst) :=
    List.chain'_cons'.mpr ⟨fun y _ => Nat.zero_le y, hmono⟩
  obtain ⟨b2, hwf⟩ := runTrace_tsWf trace AppState.empty 0 hempty hchain
  refine ⟨fun r hr => (hwf.1 r hr).1, fun h hh => (hwf.2 h hh).1,
    fun _ _ _ _ => rfl, fun _ _ _ _ => rfl, ?_, ?_⟩
  · intro now tid p s r0 hg h1 h2 s1 r1 hu
    unfold update_task at hu
    rw [hg] at hu
    have hr1 : { applyTaskUpdate r0 p with updated_at := now } = r1 :=
      congrArg Prod.snd (Except.ok.inj hu)
    rw [← hr1]
    exact le_trans h1 h2
  · intro now hid p s r0 hg h1 h2 s1 r1 hu
    unfold update_habit at hu
    rw [hg] at hu
    have hr1 : { applyHabitUpdate r0 p with updated_at := now } = r1 :=
      congrArg Prod.snd (Except.ok.inj hu)
    rw [← hr1]
    exact le_trans h1 h2

/-- Witness for C8 on a concrete five-request trace. -/
theorem c8_timestamp_invariant_witness :
    demoTraceTaskRec.created_at ≤ demoTraceTaskRec.updated_at ∧
    demoTraceHabitRec.created_at ≤ demoTraceHabitRec.updated_at :=
  ⟨(c8_timestamp_invariant demoTrace (by simp [demoTrace])).1
      demoTraceTaskRec (by decide),
   (c8_timestamp_invariant demoTrace (by simp [demoTrace])).2.1
      demoTraceHabitRec (by decide)⟩

/-- C9: a create whose priority is explicitly null (or omitted) stores
priority 3; an update whose priority is explicitly null stores null — the
coercion exists only in `create_task`. -/
theorem c9_priority_null_coercion :
    (∀ (raw : RawTaskCreate) (p : TaskCreate),
      (raw.priority = .null ∨ raw.priority = .omitted) →
      parseTaskCreate raw = some p →
      ∀ (now : Nat) (tid : String) (s : TaskStore),
        (create_task now tid p s).2.priority = some 3) ∧
    (∀ (now : Nat) (tid : String) (s : TaskStore) (r0 : TaskRecord) (u : TaskUpdate),
      storeGet TaskRecord.id s tid = some r0 → u.priority = some none →
      ∃ s1 r1, update_task now tid u s = .ok (s1, r1) ∧ r1.priority = none) := by
  constructor
  · intro raw p hnp hp now tid s
    unfold parseTaskCreate at hp
    simp only [bind, Option.bind_eq_some, Option.pure_def,
      Option.some.injEq] at hp
    obtain ⟨title, ht, description, hd, due, hdue, pr, hpr, tags, htags,
      comp, hcomp, hp⟩ := hp
    show some (p.priority.getD 3) = some 3
    rw [← hp]
    rcases hnp with hnull | homit
    · rw [hnull] at hpr
      cases Option.some.inj hpr
      rfl
    · rw [homit] at hpr
      cases Option.some.inj hpr
      rfl
  · intro now tid s r0 u hg hu
    refine ⟨storeSet TaskRecord.id s tid { applyTaskUpdate r0 u with updated_at := now },
      { applyTaskUpdate r0 u with updated_at := now }, ?_, ?_⟩
    · unfold update_task
      rw [hg]
    · show u.priority.getD r0.priority = none
      rw [hu]
      rfl

/-- Witness for C9 at a concrete null-priority create and update. -/
theorem c9_priority_null_coercion_witness :
    (create_task 0 "t1" nullPriorityTask []).2.priority = some 3 ∧
    (∃ s1 r1, update_task 9 "t1" nullPriorityPatch demoTasks1 = .ok (s1, r1) ∧
      r1.priority = none) :=
  ⟨c9_priority_null_coercion.1 rawNullPriorityTask nullPriorityTask
      (.inl rfl) rfl 0 "t1" [],
   c9_priority_null_coercion.2 9 "t1" demoTasks1 demoTaskRec
      nullPriorityPatch rfl rfl⟩

/-- C10: a task request never touches the HABITS store, a habit request
never touches the TASKS store, and get/list requests modify neither. -/
theorem c10_store_isolation (now : Nat) (op : Op) (s : AppState) :
    (op.isTaskOp = true → (step now op s).habits = s.habits) ∧
    (op.isHabitOp = true → (step now op s).tasks = s.tasks) ∧
    (op.isReadOp = true → step now op s = s) := by
  cases op with
  | createTask id p =>
    exact ⟨fun _ => rfl, fun h => by simp [Op.isHabitOp] at h,
      fun h => by simp [Op.isReadOp] at h⟩
  | updateTask id p =>
    refine ⟨fun _ => ?_, fun h => by simp [Op.isHabitOp] at h,
      fun h => by simp [Op.isReadOp] at h⟩
    simp only [step]
    cases update_task now id p s.tasks with
    | error e => rfl
    | ok pair => obtain ⟨ts, r1⟩ := pair; rfl
  | deleteTask id =>
    refine ⟨fun _ => ?_, fun h => by simp [Op.isHabitOp] at h,
      fun h => by simp [Op.isReadOp] at h⟩
    simp only [step]
    cases delete_task id s.tasks with
    | error e => rfl
    | ok ts => rfl
  | getTask id => exact ⟨fun _ => rfl, fun h => by simp [Op.isHabitOp] at h, fun _ => rfl⟩
  | listTasks page size tag completed =>
    exact ⟨fun _ => rfl, fun h => by simp [Op.isHabitOp] at h, fun _ => rfl⟩
  | createHabit id p =>
    exact ⟨fun h => by simp [Op.isTaskOp] at h, fun _ => rfl,
      fun h => by simp [Op.isReadOp] at h⟩
  | updateHabit id p =>
    refine ⟨fun h => by simp [Op.isTaskOp] at h, fun _ => ?_,
      fun h => by simp [Op.isReadOp] at h⟩
    simp only [step]
    cases update_habit now id p s.habits with
    | error e => rfl
    | ok pair => obtain ⟨hs, r1⟩ := pair; rfl
  | deleteHabit id =>
    refine ⟨fun h => by simp [Op.isTaskOp] at h, fun _ => ?_,
      fun h => by simp [Op.isReadOp] at h⟩
    simp only [step]
    cases delete_habit id s.habits with
    | error e => rfl
    | ok hs => rfl
  | getHabit id => exact ⟨fun h => by simp [Op.isTaskOp] at h, fun _ => rfl, fun _ => rfl⟩
  | listHabits page size tag =>
    exact ⟨fun h => by simp [Op.isTaskOp] at h, fun _ => rfl, fun _ => rfl⟩

/-- Witness for C10: a concrete create of each resource and a concrete read. -/
theorem c10_store_isolation_witness :
    (step 1 (Op.createTask "t1" demoTask) AppState.empty).habits =
      AppState.empty.habits ∧
    (step 1 (Op.createHabit "h1" demoHabit) AppState.empty).tasks =
      AppState.empty.tasks ∧
    step 1 (Op.getTask "t1") AppState.empty = AppState.empty ∧
    step 1 (Op.listHabits 1 50 none) AppState.empty = AppState.empty :=
  ⟨(c10_store_isolation 1 (Op.createTask "t1" demoTask) AppState.empty).1 rfl,
   (c10_store_isolation 1 (Op.createHabit "h1" demoHabit) AppState.empty).2.1 rfl,
   (c10_store_isolation 1 (Op.getTask "t1") AppState.empty).2.2 rfl,
   (c10_store_isolation 1 (Op.listHabits 1 50 none) AppState.empty).2.2 rfl⟩

end TrackerApi
